import Mathlib

/-!
Verification of the gotel monitoring service (`api.go`) against its design
specification. The file shallowly embeds the request handlers and helpers of
`api.go`. Collaborators that live in repository files outside `api.go`
(the record structs, `FailsSLA`, `RelTime`, the `store*` functions) are
modelled from the specification; each such definition carries a doc comment
saying so.

Conventions of the embedding:
  * Go `int64` becomes `Int`; Go strings become `String`.
  * `sql.NullString` becomes `Option String` (Go's `NullString.String` is `""`
    whenever the value is NULL, which `Option.getD ""` reproduces).
  * a database query that can fail is an `Except String` value; handlers that
    call fallible store operations take a `Bool` per operation saying whether
    that store call succeeds, so that every error path of the Go code is
    reachable in the model.
  * the network poll of a peer node is a function `String → PollResult`.
-/

namespace Gotel

/-- Record scanned from the `reservations` table and returned by the list
endpoint. The struct itself is declared outside `api.go`; its fields are the
ones `api.go` reads and writes (scan targets of `getReservations`, inputs of
`validateReservation` and `FailsSLA`, display fields). Go zero values of the
struct are `""`, `0`, `false`. -/
structure reservation where
  JobID : Int
  App : String
  Component : String
  Owner : String
  Notify : String
  AlertMessage : String
  Frequency : Int
  TimeUnits : String
  LastCheckin : Int
  NumCheckins : Int
  TimeSinceLastCheckin : String
  LastCheckinStr : String
  FailingSLA : Bool
  deriving DecidableEq, Repr

/-- Checkin request body: `doCheckin` decodes `app` and `component`. -/
structure checkin where
  App : String
  Component : String
  deriving DecidableEq, Repr

/-- Snooze request body as validated by `validateSnooze` in `api.go`. -/
structure snooze where
  App : String
  Component : String
  Duration : Int
  TimeUnits : String
  deriving DecidableEq, Repr

/-- `validTimeUnits` of `api.go` line 31: the recognized time units, each
mapped to `1`. Only membership is ever used. -/
def validTimeUnits : List (String × Int) :=
  [("seconds", 1), ("minutes", 1), ("hours", 1)]

/-- `validateReservation` of `api.go`: the only check is that `TimeUnits` is a
key of the (locally rebuilt, identical) time-units map. Returns `some errMsg`
for Go's non-nil `error`, `none` for nil. -/
def validateReservation (res : reservation) : Option String :=
  match validTimeUnits.lookup res.TimeUnits with
  | none => some "Invalid time_units passed in"
  | some _ => none

/-- `validateSnooze` of `api.go`: rejects a `TimeUnits` outside the map, then
rejects `Duration == 0` (with an empty error message); anything else passes. -/
def validateSnooze (p : snooze) : Option String :=
  match validTimeUnits.lookup p.TimeUnits with
  | none => some "Invalid time_units passed in"
  | some _ => if p.Duration == 0 then some "" else none

/-- Modelled from the spec: `unitSeconds` (the `frequency`/`duration`
multiplier; the conversion lives outside `api.go`): seconds ↦ 1,
minutes ↦ 60, hours ↦ 3600. Validation makes other strings unreachable;
they map to 0. -/
def unitSeconds (u : String) : Int :=
  if u == "seconds" then 1
  else if u == "minutes" then 60
  else if u == "hours" then 3600
  else 0

/-- Modelled from the spec: a stored Snooze, "effectively defining an expiry
instant = issue time + duration·unit" (the snooze row type is outside
`api.go`). -/
structure snoozeRec where
  app : String
  component : String
  expiry : Int
  deriving DecidableEq, Repr

/-- Modelled from the spec: an active Snooze for `(app, component)` is one
"whose expiry instant is after `now`". -/
def activeSnooze (snoozes : List snoozeRec) (app component : String)
    (now : Int) : Bool :=
  snoozes.any fun s => s.app == app && s.component == component && now < s.expiry

/-- Modelled from the spec: `FailsSLA` (the SLA Evaluator, outside `api.go`):
`allowedGap = frequency * unitSeconds(timeUnits)`, `elapsed = now -
lastCheckinTimestamp`; an active Snooze for the pair forces `failing = false`
regardless of elapsed time, otherwise `failing = elapsed > allowedGap`. The
ambient current time and snooze table that the Go function reads for itself
are explicit parameters here. -/
def FailsSLA (snoozes : List snoozeRec) (now : Int) (res : reservation) : Bool :=
  if activeSnooze snoozes res.App res.Component now then false
  else now - res.LastCheckin > res.Frequency * unitSeconds res.TimeUnits

/-- Modelled from the spec: `RelTime lastCheckin now "ago" ""` (Time
Utilities, outside `api.go`) renders `elapsed = now - lastCheckin` as a
relative phrase suffixed with the first label; a non-positive elapsed time
"must not be treated as failing — clamp to a just-now phrase". Positive
durations are bucketed into the obvious units. -/
def humanizeDuration (secs : Int) : String :=
  if secs < 60 then toString secs ++ " seconds"
  else if secs < 3600 then toString (secs / 60) ++ " minutes"
  else if secs < 86400 then toString (secs / 3600) ++ " hours"
  else toString (secs / 86400) ++ " days"

/-- Modelled from the spec: see `humanizeDuration`. -/
def RelTime (a b : Int) (albl : String) : String :=
  if b - a ≤ 0 then "just now"
  else humanizeDuration (b - a) ++ " " ++ albl

/-- Row of the `reservations` table, in the column order of the SELECT in
`getReservations`: `id, app, component, owner, notify, alert_msg, frequency,
time_units, last_checkin_timestamp, num_checkins`. `alert_msg` is nullable. -/
structure resRow where
  id : Int
  app : String
  component : String
  owner : String
  notify : String
  alert_msg : Option String
  frequency : Int
  time_units : String
  last_checkin_timestamp : Int
  num_checkins : Int
  deriving DecidableEq, Repr

/-- Loop body of `getReservations` for one scanned row: build the
`reservation` value exactly as the Go loop does. `AlertMessage` starts at the
struct zero value `""` and is assigned the scanned string only under
`(!alertMessage.Valid) || (alertMessage.String == "")`; `sql.NullString` has
`String = ""` whenever `Valid = false`, which `Option.getD ""` reproduces.
`fmt` stands for the external `time.Format(time.RFC1123)`. -/
def scanReservation (snoozes : List snoozeRec) (now : Int) (fmt : Int → String)
    (row : resRow) : reservation :=
  let alertValid := row.alert_msg.isSome
  let alertStr := row.alert_msg.getD ""
  let res : reservation :=
    { JobID := row.id, App := row.app, Component := row.component,
      Owner := row.owner, Notify := row.notify, AlertMessage := "",
      Frequency := row.frequency, TimeUnits := row.time_units,
      LastCheckin := row.last_checkin_timestamp,
      NumCheckins := row.num_checkins,
      TimeSinceLastCheckin := RelTime row.last_checkin_timestamp now "ago",
      LastCheckinStr := fmt row.last_checkin_timestamp,
      FailingSLA := false }
  let res := { res with FailingSLA := FailsSLA snoozes now res }
  if !alertValid || alertStr == "" then { res with AlertMessage := alertStr }
  else res

/-- `getReservations` of `api.go`: propagate a query error, otherwise map the
loop body over the rows (which the SQL `ORDER BY last_checkin_timestamp DESC`
hands over sorted by recency). -/
def getReservations (dbRows : Except String (List resRow))
    (snoozes : List snoozeRec) (now : Int) (fmt : Int → String) :
    Except String (List reservation) :=
  match dbRows with
  | .error e => .error e
  | .ok rows => .ok (rows.map (scanReservation snoozes now fmt))

/-- Row of the `nodes` table, in the column order of the SELECT in
`getNodes`: `id, ip_address, node_id`. -/
structure nodeRow where
  id : Int
  ip_address : String
  node_id : Int
  deriving DecidableEq, Repr

/-- `node` struct of `api.go` lines 24-29. -/
structure node where
  ID : Int
  IPAddress : String
  NodeID : Int
  IsCoordinator : Bool
  deriving DecidableEq, Repr

/-- Outcome of the HTTP GET against a peer's `/is-coordinator`: a transport
failure, or a response with a status code and a body. -/
inductive PollResult where
  | failure
  | response (status : Nat) (body : String)
  deriving DecidableEq, Repr

/-- `getNodes` of `api.go`: propagate a query error; for each node row poll
`http://ip:8080/is-coordinator`. A transport failure or a non-200 status makes
the loop `continue` — the node is skipped, not appended. A reachable node is
appended with `IsCoordinator` true exactly when the body is `"true"`. -/
def getNodes (dbRows : Except String (List nodeRow))
    (poll : String → PollResult) : Except String (List node) :=
  match dbRows with
  | .error e => .error e
  | .ok rows =>
      .ok (rows.filterMap fun r =>
        match poll r.ip_address with
        | .failure => none
        | .response status body =>
            if status != 200 then none
            else some { ID := r.id, IPAddress := r.ip_address,
                        NodeID := r.node_id, IsCoordinator := body == "true" })

/-- Whether a poll outcome counts as reachable (transport success and a 200
status) — the condition under which `getNodes` keeps the node. -/
def pollReachable : PollResult → Bool
  | .failure => false
  | .response status _ => status == 200

/-- Coordinator flag a poll outcome reports: the body equals `"true"`
(`false` for a failure, which `getNodes` never reads). -/
def pollSaysCoordinator : PollResult → Bool
  | .failure => false
  | .response _ body => body == "true"

/-- Modelled from the spec: the stored Reservation row state that a checkin
touches (`ApplyCheckin` sets `lastCheckinTimestamp = now` and increments
`numCheckins`; the storer is outside `api.go`). -/
structure resRecord where
  app : String
  component : String
  last_checkin_timestamp : Int
  num_checkins : Int
  deriving DecidableEq, Repr

/-- Modelled from the spec: `storeCheckin` (storer outside `api.go`). A known
`(app, component)` pair gets `lastCheckinTimestamp = now` and `numCheckins`
incremented; an unknown pair "must succeed and be recorded, not rejected" and
per the spec scenario produces `numCheckins = 1`. -/
def storeCheckin (db : List resRecord) (c : checkin) (now : Int) :
    List resRecord :=
  if db.any (fun r => r.app == c.App && r.component == c.Component) then
    db.map fun r =>
      if r.app == c.App && r.component == c.Component then
        { r with last_checkin_timestamp := now,
                 num_checkins := r.num_checkins + 1 }
      else r
  else
    db ++ [⟨c.App, c.Component, now, 1⟩]

/-- Store state visible to `doCheckin`: the reservation records and the
append-only housekeeping log (each entry the checkin and its timestamp). -/
structure GotelState where
  reservations : List resRecord
  housekeeping : List (checkin × Int)
  deriving DecidableEq, Repr

/-- `doCheckin` of `api.go`, as a function of the decode outcome, the success
of each of the two store calls, the decoded checkin, `now`, and the store
state; result is the new store state and the `success` flag of the JSON
response. The Go code returns after a failed decode, returns after a failed
`storeCheckin` (modelled as leaving the store unchanged: a `StoreError` "is
not partially applied"), and returns failure after a failed `logHouseKeeping`
— at which point `storeCheckin` has already been applied and is not rolled
back. -/
def doCheckin (decodeOk storeOk logOk : Bool) (c : checkin) (now : Int)
    (s : GotelState) : GotelState × Bool :=
  if !decodeOk then (s, false)
  else if !storeOk then (s, false)
  else
    let s1 : GotelState :=
      { s with reservations := storeCheckin s.reservations c now }
    if !logOk then (s1, false)
    else ({ s1 with housekeeping := s1.housekeeping ++ [(c, now)] }, true)

/-- Modelled from the spec: `storeReservation` / `InsertReservation` persists
the new Reservation (storer outside `api.go`). -/
def storeReservation (db : List reservation) (res : reservation) :
    List reservation :=
  db ++ [res]

/-- `makeReservation` of `api.go` after decoding: a validation failure writes
an error and returns before any store call; otherwise the reservation is
stored (the store call may itself fail). Result: reservation table and
whether the handler reported success. -/
def makeReservation (storeOk : Bool) (res : reservation)
    (db : List reservation) : List reservation × Bool :=
  match validateReservation res with
  | some _ => (db, false)
  | none => if storeOk then (storeReservation db res, true) else (db, false)

/-- Modelled from the spec: `storeSnooze` / `InsertSnooze` persists a Snooze
whose expiry instant is issue time + duration·unit (storer outside
`api.go`). -/
def storeSnooze (db : List snoozeRec) (p : snooze) (now : Int) :
    List snoozeRec :=
  db ++ [⟨p.App, p.Component, now + p.Duration * unitSeconds p.TimeUnits⟩]

/-- `doSnooze` of `api.go` after decoding: a validation failure writes an
error and returns before any store call; otherwise the snooze is stored. -/
def doSnooze (storeOk : Bool) (p : snooze) (db : List snoozeRec) (now : Int) :
    List snoozeRec × Bool :=
  match validateSnooze p with
  | some _ => (db, false)
  | none => if storeOk then (storeSnooze db p now, true) else (db, false)

end Gotel

namespace Gotel

/-! ## Helper lemmas (shared) -/

/-- Characterize the time-units lookup used by both validators. -/
theorem validTimeUnits_lookup (u : String) :
    validTimeUnits.lookup u =
      if u = "seconds" ∨ u = "minutes" ∨ u = "hours" then some 1 else none := by
  by_cases h1 : u = "seconds"
  · subst h1; decide
  by_cases h2 : u = "minutes"
  · subst h2; decide
  by_cases h3 : u = "hours"
  · subst h3; decide
  have e1 : (u == "seconds") = false := by simp [h1]
  have e2 : (u == "minutes") = false := by simp [h2]
  have e3 : (u == "hours") = false := by simp [h3]
  have hnone : validTimeUnits.lookup u = none := by
    simp [validTimeUnits, List.lookup, e1, e2, e3]
  simp [hnone, h1, h2, h3]

/-- The scanned `LastCheckin` field is the row's `last_checkin_timestamp`. -/
theorem scanReservation_LastCheckin (snoozes : List snoozeRec) (now : Int)
    (fmt : Int → String) (row : resRow) :
    (scanReservation snoozes now fmt row).LastCheckin =
      row.last_checkin_timestamp := by
  simp only [scanReservation]
  split <;> rfl

/-- The scanned `AlertMessage` field is always empty: the guarded assignment
only ever copies a NULL-or-empty value, and the zero value is `""`. -/
theorem scanReservation_AlertMessage (snoozes : List snoozeRec) (now : Int)
    (fmt : Int → String) (row : resRow) :
    (scanReservation snoozes now fmt row).AlertMessage = "" := by
  simp only [scanReservation]
  split
  case isTrue h =>
    cases hm : row.alert_msg with
    | none => simp
    | some s =>
      rw [hm] at h
      simp only [Option.isSome_some, Bool.not_true, Bool.false_or,
        Option.getD_some, beq_iff_eq] at h
      simp [h]
  case isFalse h => rfl

end Gotel

namespace Gotel

/-! ## C1: coordinator discovery and unreachable peers -/

/-- C1 counterexample: one stored node whose poll is a transport failure. The
claim demands a result of length 1 whose single entry has
`isCoordinator = false`; `getNodes` instead skips the node and returns the
empty list. -/
theorem getNodes_c1_counterexample :
    getNodes (Except.ok [⟨1, "10.0.0.1", 1⟩]) (fun _ => PollResult.failure) =
      Except.ok [] ∧
    ([] : List node).length ≠ 1 :=
  ⟨rfl, by decide⟩

/-- C1 (amended): `getNodes` never fails because of unreachable peers, but it
returns only the reachable nodes (transport success and HTTP 200): each
unreachable row is omitted from the result rather than included with
`IsCoordinator = false`, so the result has length N − M; each kept node has
`IsCoordinator` true exactly when the polled body is `"true"`. -/
theorem getNodes_skips_unreachable (rows : List nodeRow)
    (poll : String → PollResult) :
    getNodes (Except.ok rows) poll =
      Except.ok ((rows.filter fun r => pollReachable (poll r.ip_address)).map
        fun r => ⟨r.id, r.ip_address, r.node_id,
                  pollSaysCoordinator (poll r.ip_address)⟩) ∧
    ((rows.filter fun r => pollReachable (poll r.ip_address)).map
        fun r => (⟨r.id, r.ip_address, r.node_id,
                  pollSaysCoordinator (poll r.ip_address)⟩ : node)).length =
      (rows.filter fun r => pollReachable (poll r.ip_address)).length := by
  refine ⟨?_, List.length_map _ _⟩
  simp only [getNodes, Except.ok.injEq]
  induction rows with
  | nil => rfl
  | cons r rs ih =>
    simp only [List.filterMap_cons, List.filter_cons]
    cases h : poll r.ip_address with
    | failure => simpa [pollReachable, h] using ih
    | response status body =>
      by_cases hs : status = 200
      · subst hs
        simpa [pollReachable, pollSaysCoordinator, h] using ih
      · simpa [pollReachable, pollSaysCoordinator, h, hs] using ih

/-! ## C5: what the validators actually reject -/

/-- C5 counterexample: a reservation with `frequency = 0` passes
`validateReservation` and is persisted by `makeReservation`, and a snooze with
`duration = -1` passes `validateSnooze` and is persisted by `doSnooze` — the
claimed rejections of non-positive `frequency`/`duration` do not happen. -/
theorem validation_c5_counterexample :
    validateReservation ⟨0, "a", "b", "", "", "", 0, "seconds", 0, 0, "", "", false⟩ = none ∧
    makeReservation true ⟨0, "a", "b", "", "", "", 0, "seconds", 0, 0, "", "", false⟩ [] =
      ([⟨0, "a", "b", "", "", "", 0, "seconds", 0, 0, "", "", false⟩], true) ∧
    validateSnooze ⟨"a", "b", -1, "seconds"⟩ = none ∧
    doSnooze true ⟨"a", "b", -1, "seconds"⟩ [] 0 = ([⟨"a", "b", -1⟩], true) := by
  refine ⟨rfl, rfl, rfl, rfl⟩

/-- C5 (amended): `validateReservation` checks only `timeUnits` — any
`frequency`, including non-positive ones, passes; `validateSnooze` rejects an
invalid `timeUnits` or `duration == 0` but accepts negative durations. A
validation failure does reject before any mutation. -/
theorem validation_checks (res : reservation) (p : snooze)
    (dbR : List reservation) (dbS : List snoozeRec) (now : Int)
    (ok1 ok2 : Bool) :
    (validateReservation res = none ↔
       (res.TimeUnits = "seconds" ∨ res.TimeUnits = "minutes" ∨
        res.TimeUnits = "hours")) ∧
    (validateSnooze p = none ↔
       ((p.TimeUnits = "seconds" ∨ p.TimeUnits = "minutes" ∨
         p.TimeUnits = "hours") ∧ p.Duration ≠ 0)) ∧
    (validateReservation res ≠ none → makeReservation ok1 res dbR = (dbR, false)) ∧
    (validateSnooze p ≠ none → doSnooze ok2 p dbS now = (dbS, false)) := by
  refine ⟨?_, ?_, ?_, ?_⟩
  · rw [validateReservation, validTimeUnits_lookup]
    by_cases h : res.TimeUnits = "seconds" ∨ res.TimeUnits = "minutes" ∨
        res.TimeUnits = "hours"
    · simp [h]
    · simp [h]
  · rw [validateSnooze, validTimeUnits_lookup]
    by_cases h : p.TimeUnits = "seconds" ∨ p.TimeUnits = "minutes" ∨
        p.TimeUnits = "hours"
    · by_cases hd : p.Duration = 0 <;> simp [h, hd]
    · simp [h]
  · intro hv
    rw [makeReservation]
    match he : validateReservation res with
    | some e => rfl
    | none => exact absurd he hv
  · intro hv
    rw [doSnooze]
    match he : validateSnooze p with
    | some e => rfl
    | none => exact absurd he hv

/-- Witness for the amended C5 at concrete inputs. -/
theorem validation_checks_witness :
    validateSnooze ⟨"a", "b", -5, "seconds"⟩ = none ∧
    doSnooze true ⟨"a", "b", 7, "days"⟩ [] 0 = ([], false) :=
  ⟨(validation_checks ⟨0, "a", "b", "", "", "", 1, "seconds", 0, 0, "", "", false⟩
      ⟨"a", "b", -5, "seconds"⟩ [] [] 0 true true).2.1.mpr (by decide),
   (validation_checks ⟨0, "a", "b", "", "", "", 1, "seconds", 0, 0, "", "", false⟩
      ⟨"a", "b", 7, "days"⟩ [] [] 0 true true).2.2.2 (by decide)⟩

/-! ## C7: the timeUnits check -/

/-- C7: an input whose `timeUnits` is outside `{seconds, minutes, hours}`
fails validation of `makeReservation` / `doSnooze` with a validation error and
nothing is persisted; a `timeUnits` inside the set passes the timeUnits
check. -/
theorem timeUnits_validation (res : reservation) (p : snooze)
    (dbR : List reservation) (dbS : List snoozeRec) (now : Int)
    (ok1 ok2 : Bool) :
    (¬(res.TimeUnits = "seconds" ∨ res.TimeUnits = "minutes" ∨
       res.TimeUnits = "hours") →
       validateReservation res = some "Invalid time_units passed in" ∧
       makeReservation ok1 res dbR = (dbR, false)) ∧
    (¬(p.TimeUnits = "seconds" ∨ p.TimeUnits = "minutes" ∨
       p.TimeUnits = "hours") →
       validateSnooze p = some "Invalid time_units passed in" ∧
       doSnooze ok2 p dbS now = (dbS, false)) ∧
    ((res.TimeUnits = "seconds" ∨ res.TimeUnits = "minutes" ∨
      res.TimeUnits = "hours") →
       validateReservation res = none) ∧
    ((p.TimeUnits = "seconds" ∨ p.TimeUnits = "minutes" ∨
      p.TimeUnits = "hours") →
       validateSnooze p ≠ some "Invalid time_units passed in") := by
  refine ⟨?_, ?_, ?_, ?_⟩
  · intro h
    have hv : validateReservation res = some "Invalid time_units passed in" := by
      rw [validateReservation, validTimeUnits_lookup, if_neg h]
    exact ⟨hv, by rw [makeReservation, hv]⟩
  · intro h
    have hv : validateSnooze p = some "Invalid time_units passed in" := by
      rw [validateSnooze, validTimeUnits_lookup, if_neg h]
    exact ⟨hv, by rw [doSnooze, hv]⟩
  · intro h
    rw [validateReservation, validTimeUnits_lookup, if_pos h]
  · intro h
    rw [validateSnooze, validTimeUnits_lookup, if_pos h]
    by_cases hd : p.Duration = 0 <;> simp [hd]

/-- Witness for C7 at concrete inputs: `"days"` is rejected with nothing
stored, `"seconds"` passes the timeUnits check. -/
theorem timeUnits_validation_witness :
    (validateReservation ⟨0, "a", "b", "", "", "", 1, "days", 0, 0, "", "", false⟩ =
       some "Invalid time_units passed in" ∧
     makeReservation true ⟨0, "a", "b", "", "", "", 1, "days", 0, 0, "", "", false⟩ [] =
       ([], false)) ∧
    validateReservation ⟨0, "a", "b", "", "", "", 1, "seconds", 0, 0, "", "", false⟩ =
      none :=
  ⟨(timeUnits_validation ⟨0, "a", "b", "", "", "", 1, "days", 0, 0, "", "", false⟩
      ⟨"a", "b", 1, "days"⟩ [] [] 0 true true).1 (by decide),
   (timeUnits_validation ⟨0, "a", "b", "", "", "", 1, "seconds", 0, 0, "", "", false⟩
      ⟨"a", "b", 1, "days"⟩ [] [] 0 true true).2.2.1 (by decide)⟩

end Gotel

namespace Gotel

/-! ## C2, C3, C8: the SLA evaluation rule -/

/-- C2: whenever an active (non-expired at `now`) Snooze exists for the
reservation's `(app, component)` pair, `FailsSLA` returns `false`, regardless
of how much time has elapsed since the last checkin. -/
theorem FailsSLA_snoozed (snoozes : List snoozeRec) (now : Int)
    (res : reservation)
    (h : activeSnooze snoozes res.App res.Component now = true) :
    FailsSLA snoozes now res = false := by
  simp [FailsSLA, h]

/-- Witness for C2: elapsed time (50 s) far exceeds the allowed gap (1 s), yet
the active snooze (expiry 100 > now = 50) suppresses the failure. -/
theorem FailsSLA_snoozed_witness :
    FailsSLA [⟨"svc", "db", 100⟩] 50
      ⟨0, "svc", "db", "", "", "", 1, "seconds", 0, 0, "", "", false⟩ = false :=
  FailsSLA_snoozed [⟨"svc", "db", 100⟩] 50
    ⟨0, "svc", "db", "", "", "", 1, "seconds", 0, 0, "", "", false⟩ (by decide)

/-- C3: with no active Snooze for the pair, `FailsSLA` is `true` exactly when
`now - lastCheckinTimestamp > frequency * unitSeconds timeUnits`, where
`unitSeconds` maps seconds ↦ 1, minutes ↦ 60, hours ↦ 3600. -/
theorem FailsSLA_no_snooze (snoozes : List snoozeRec) (now : Int)
    (res : reservation)
    (h : activeSnooze snoozes res.App res.Component now = false) :
    ((FailsSLA snoozes now res = true) ↔
       now - res.LastCheckin > res.Frequency * unitSeconds res.TimeUnits) ∧
    unitSeconds "seconds" = 1 ∧ unitSeconds "minutes" = 60 ∧
    unitSeconds "hours" = 3600 := by
  refine ⟨?_, by decide, by decide, by decide⟩
  simp [FailsSLA, h]

/-- Witness for C3: no snooze, 100 s elapsed against an allowed gap of one
minute. -/
theorem FailsSLA_no_snooze_witness :
    ((FailsSLA [] 100
        ⟨0, "a", "b", "", "", "", 1, "minutes", 0, 0, "", "", false⟩ = true) ↔
       (100 : Int) - 0 > 1 * unitSeconds "minutes") ∧
    unitSeconds "seconds" = 1 ∧ unitSeconds "minutes" = 60 ∧
    unitSeconds "hours" = 3600 :=
  FailsSLA_no_snooze [] 100
    ⟨0, "a", "b", "", "", "", 1, "minutes", 0, 0, "", "", false⟩ (by decide)

/-- C8: a `lastCheckinTimestamp` in the future (negative elapsed time) is
never reported failing — given the Reservation invariant `frequency > 0`
(a non-negative frequency suffices) — and the elapsed-time rendering clamps to
the just-now phrase. -/
theorem FailsSLA_future_checkin (snoozes : List snoozeRec) (now : Int)
    (res : reservation) (hneg : now - res.LastCheckin < 0)
    (hfreq : 0 ≤ res.Frequency) :
    FailsSLA snoozes now res = false ∧
    RelTime res.LastCheckin now "ago" = "just now" := by
  constructor
  · rw [FailsSLA]
    split
    · rfl
    · have hu : 0 ≤ unitSeconds res.TimeUnits := by
        rw [unitSeconds]
        split
        · decide
        split
        · decide
        split
        · decide
        · decide
      simp only [decide_eq_false_iff_not, not_lt]
      exact le_trans (le_of_lt hneg) (mul_nonneg hfreq hu)
  · rw [RelTime, if_pos (le_of_lt hneg)]

/-- Witness for C8: last checkin at 10, evaluated at now = 0. -/
theorem FailsSLA_future_checkin_witness :
    FailsSLA [] 0
      ⟨0, "a", "b", "", "", "", 1, "seconds", 10, 0, "", "", false⟩ = false ∧
    RelTime 10 0 "ago" = "just now" :=
  FailsSLA_future_checkin [] 0
    ⟨0, "a", "b", "", "", "", 1, "seconds", 10, 0, "", "", false⟩
    (by decide) (by decide)

/-! ## C4, C6: the checkin path -/

/-- C4 counterexample: starting from an empty store, a checkin whose
housekeeping-log write fails leaves the checkin record persisted
(`numCheckins = 1`, timestamp 5) while the handler reports failure and no log
entry exists — the claimed all-or-nothing atomicity does not hold. -/
theorem doCheckin_c4_counterexample :
    doCheckin true true false ⟨"payments", "db"⟩ 5 ⟨[], []⟩ =
      (⟨[⟨"payments", "db", 5, 1⟩], []⟩, false) ∧
    ([⟨"payments", "db", 5, 1⟩] : List resRecord) ≠ [] :=
  ⟨rfl, by decide⟩

/-- C4 (amended): `doCheckin` applies the checkin update and the housekeeping
log append as two separate sequential store operations. A decode or
`storeCheckin` failure leaves the store unchanged and reports failure; a
`logHouseKeeping` failure after a successful `storeCheckin` leaves the checkin
persisted with no log entry while reporting failure; only when both succeed
are all effects applied and success reported. -/
theorem doCheckin_effects (b1 b2 : Bool) (c : checkin) (now : Int)
    (s : GotelState) :
    doCheckin false b1 b2 c now s = (s, false) ∧
    doCheckin true false b2 c now s = (s, false) ∧
    doCheckin true true false c now s =
      ({ s with reservations := storeCheckin s.reservations c now }, false) ∧
    doCheckin true true true c now s =
      ({ reservations := storeCheckin s.reservations c now,
         housekeeping := s.housekeeping ++ [(c, now)] }, true) :=
  ⟨rfl, rfl, rfl, rfl⟩

/-- C6: a checkin for a pair with no existing Reservation record (and healthy
store calls) succeeds and appends a fresh record with `numCheckins = 1` and
`lastCheckinTimestamp = now`, plus the housekeeping log entry. -/
theorem doCheckin_unknown_pair (c : checkin) (now : Int) (s : GotelState)
    (h : s.reservations.any
        (fun r => r.app == c.App && r.component == c.Component) = false) :
    doCheckin true true true c now s =
      ({ reservations := s.reservations ++ [⟨c.App, c.Component, now, 1⟩],
         housekeeping := s.housekeeping ++ [(c, now)] }, true) := by
  simp [doCheckin, storeCheckin, h]

/-- Witness for C6: checkin for an unknown pair on an empty store. -/
theorem doCheckin_unknown_pair_witness :
    doCheckin true true true ⟨"new", "x"⟩ 7 ⟨[], []⟩ =
      (⟨[⟨"new", "x", 7, 1⟩], [(⟨"new", "x"⟩, 7)]⟩, true) :=
  doCheckin_unknown_pair ⟨"new", "x"⟩ 7 ⟨[], []⟩ (by decide)

end Gotel

namespace Gotel

/-! ## C9, C10: the list-reservations read path -/

/-- C9: when the store hands over the rows ordered by the query's
`ORDER BY last_checkin_timestamp DESC` (each row's timestamp at least the
next one's), `getReservations` succeeds and returns the reservations in that
same recency order: every earlier element's `LastCheckin` is at least every
later one's. -/
theorem getReservations_sorted (rows : List resRow) (snoozes : List snoozeRec)
    (now : Int) (fmt : Int → String)
    (h : rows.Pairwise fun a b =>
        b.last_checkin_timestamp ≤ a.last_checkin_timestamp) :
    ∃ l, getReservations (Except.ok rows) snoozes now fmt = Except.ok l ∧
      l.Pairwise fun a b => b.LastCheckin ≤ a.LastCheckin := by
  refine ⟨rows.map (scanReservation snoozes now fmt), rfl, ?_⟩
  refine h.map (scanReservation snoozes now fmt) ?_
  intro a b hab
  rw [scanReservation_LastCheckin, scanReservation_LastCheckin]
  exact hab

/-- Witness for C9 on two concretely ordered rows. -/
theorem getReservations_sorted_witness :
    ∃ l, getReservations
        (Except.ok [⟨1, "a", "b", "", "", none, 1, "seconds", 10, 0⟩,
                    ⟨2, "c", "d", "", "", none, 1, "seconds", 5, 0⟩])
        [] 0 (fun _ => "") = Except.ok l ∧
      l.Pairwise fun a b => b.LastCheckin ≤ a.LastCheckin :=
  getReservations_sorted
    [⟨1, "a", "b", "", "", none, 1, "seconds", 10, 0⟩,
     ⟨2, "c", "d", "", "", none, 1, "seconds", 5, 0⟩]
    [] 0 (fun _ => "")
    (by simp [List.pairwise_cons])

/-- C10: every reservation returned by `getReservations` has an empty
`AlertMessage`: the scanned `alert_msg` is copied only when it is NULL or
empty, and the field's zero value is the empty string otherwise, so a
non-empty stored alert message never reaches the response. -/
theorem getReservations_alertMessage_empty (rows : List resRow)
    (snoozes : List snoozeRec) (now : Int) (fmt : Int → String) :
    ∃ l, getReservations (Except.ok rows) snoozes now fmt = Except.ok l ∧
      (l.all fun r => r.AlertMessage == "") = true := by
  refine ⟨rows.map (scanReservation snoozes now fmt), rfl, ?_⟩
  rw [List.all_eq_true]
  intro r hr
  rcases List.mem_map.mp hr with ⟨row, _, rfl⟩
  simpa using scanReservation_AlertMessage snoozes now fmt row

end Gotel
